import Mathlib

/-!
Shallow embedding of the shell in `src/main.rs` (a pipeline-executing
command shell).  Pure functions of the source (`parse_arguments`,
`parse_redirection`, `is_builtin`, `find_in_path`) are translated
directly; the effectful parts (`execute_builtin`, `execute_pipeline`,
the body of the `main` loop) are translated into functions over an
explicit `OS` oracle describing the outside world (filesystem modes,
environment variables, spawn/wait outcomes), producing a trace of
observable events plus an optional process-exit code.
-/

set_option maxRecDepth 4096

namespace Popper

/-- Mirrors Rust `s.is_empty()` on the `List Char` model of `String`. -/
def strIsEmpty (s : String) : Bool := s.data.isEmpty

/-- Bool test that `p` is an initial segment of `s` (Rust `s.starts_with(p)`). -/
def strStartsAux : List Char → List Char → Bool
  | [], _ => true
  | _ :: _, [] => false
  | a :: as, b :: bs => a == b && strStartsAux as bs

/-- Rust `s.starts_with(p)`. -/
def strStarts (s p : String) : Bool := strStartsAux p.data s.data

/-- Rust `&s[n..]` for ASCII strings (drop the first `n` characters). -/
def strDropChars (n : Nat) (s : String) : String := ⟨s.data.drop n⟩

/-- Rust `s.split(sep)`: keeps empty fields (`"".split(sep) = [""]`). -/
def splitCharAux (sep : Char) : List Char → String → List String
  | [], cur => [cur]
  | c :: rest, cur =>
    if c == sep then cur :: splitCharAux sep rest ""
    else splitCharAux sep rest (cur.push c)

/-- Rust `s.split(sep)` collected to a list. -/
def splitChar (sep : Char) (s : String) : List String := splitCharAux sep s.data ""

/-- Rust `s.split_whitespace()`: splits on whitespace, discards empty fields. -/
def splitWhitespaceAux : List Char → String → List String
  | [], cur => if strIsEmpty cur then [] else [cur]
  | c :: rest, cur =>
    if c.isWhitespace then
      if strIsEmpty cur then splitWhitespaceAux rest ""
      else cur :: splitWhitespaceAux rest ""
    else splitWhitespaceAux rest (cur.push c)

/-- Rust `s.split_whitespace()` collected to a list. -/
def splitWhitespaceRust (s : String) : List String := splitWhitespaceAux s.data ""

/-- Rust `s.parse::<i32>()`: optional sign, decimal digits, i32 range check. -/
def rustParseI32 (s : String) : Option Int :=
  let (sign, digits) :=
    if strStarts s "-" then ((-1 : Int), strDropChars 1 s)
    else if strStarts s "+" then ((1 : Int), strDropChars 1 s)
    else ((1 : Int), s)
  if strIsEmpty digits || !(digits.data.all Char.isDigit) then none
  else
    let n : Nat := digits.data.foldl (fun a c => a * 10 + (c.toNat - 48)) 0
    let v : Int := sign * (n : Int)
    if v < -2147483648 || v > 2147483647 then none else some v

/-- Rust `Path::new(dir).join(name)`: an absolute `name` replaces `dir`;
otherwise the two are joined with a `/` separator unless one is already
present (or `dir` is empty). -/
def joinPath (dir name : String) : String :=
  if strStarts name "/" then name
  else if dir == "" then name
  else if dir.data.getLast? == some '/' then dir ++ name
  else dir ++ "/" ++ name

/-- The character-consuming loop of `parse_arguments` (src/main.rs:332-384):
state is the remaining characters, the accumulating current argument,
the two quote flags, and the arguments emitted so far.  The backslash
branch peeks at (and sometimes consumes) the following character,
mirroring the Rust `Peekable` iterator. -/
def parseArgsAux : List Char → String → Bool → Bool → List String → List String
  | [], cur, _, _, acc => if strIsEmpty cur then acc else acc ++ [cur]
  | c :: rest, cur, inS, inD, acc =>
    if c == '\\' && !inS then
      match rest with
      | [] =>
        -- peek() is None: the Rust loop body does nothing, then the loop ends
        if strIsEmpty cur then acc else acc ++ [cur]
      | n :: rest2 =>
        if inD then
          if n == '\\' || n == '"' || n == '$' || n == Char.ofNat 96 then
            parseArgsAux rest2 (cur.push n) inS inD acc
          else
            parseArgsAux (n :: rest2) (cur.push c) inS inD acc
        else
          parseArgsAux rest2 (cur.push n) inS inD acc
    else if c == '\'' && !inD then
      parseArgsAux rest cur (!inS) inD acc
    else if c == '"' && !inS then
      parseArgsAux rest cur inS (!inD) acc
    else if (c == ' ' || c == '\t') && !inS && !inD then
      if strIsEmpty cur then parseArgsAux rest cur inS inD acc
      else parseArgsAux rest "" inS inD (acc ++ [cur])
    else
      parseArgsAux rest (cur.push c) inS inD acc
termination_by structural l => l

/-- `parse_arguments` (src/main.rs:332-384): the tokenizer. -/
def parse_arguments (input : String) : List String :=
  parseArgsAux input.data "" false false []

/-- The index loop of `parse_redirection` (src/main.rs:386-480).  Exact
operator tokens consume the following token as the target when one
exists (falling through to the plain-token push when it does not, as in
the Rust `if i + 1 < parts.len()` guards); operator-prefixed tokens
carry a fused filename.  Returns
`(cmd_parts, stdout_file, stdout_append, stderr_file, stderr_append)`. -/
def parseRedirAux :
    List String → List String → Option String → Bool → Option String → Bool →
    List String × Option String × Bool × Option String × Bool
  | [], cmd, so, soa, se, sea => (cmd, so, soa, se, sea)
  | p :: rest, cmd, so, soa, se, sea =>
    if p == ">>" || p == "1>>" then
      match rest with
      | f :: rest2 => parseRedirAux rest2 cmd (some f) true se sea
      | [] => (cmd ++ [p], so, soa, se, sea)
    else if p == "2>>" then
      match rest with
      | f :: rest2 => parseRedirAux rest2 cmd so soa (some f) true
      | [] => (cmd ++ [p], so, soa, se, sea)
    else if p == ">" || p == "1>" then
      match rest with
      | f :: rest2 => parseRedirAux rest2 cmd (some f) false se sea
      | [] => (cmd ++ [p], so, soa, se, sea)
    else if p == "2>" then
      match rest with
      | f :: rest2 => parseRedirAux rest2 cmd so soa (some f) false
      | [] => (cmd ++ [p], so, soa, se, sea)
    else if strStarts p ">>" && !strStarts p "2>>" then
      parseRedirAux rest cmd (some (strDropChars 2 p)) true se sea
    else if strStarts p "1>>" then
      parseRedirAux rest cmd (some (strDropChars 3 p)) true se sea
    else if strStarts p "2>>" then
      parseRedirAux rest cmd so soa (some (strDropChars 3 p)) true
    else if strStarts p ">" && !strStarts p "2>" then
      parseRedirAux rest cmd (some (strDropChars 1 p)) false se sea
    else if strStarts p "1>" then
      parseRedirAux rest cmd (some (strDropChars 2 p)) false se sea
    else if strStarts p "2>" then
      parseRedirAux rest cmd so soa (some (strDropChars 2 p)) false
    else
      parseRedirAux rest (cmd ++ [p]) so soa se sea

/-- `parse_redirection` (src/main.rs:386-480). -/
def parse_redirection (parts : List String) :
    List String × Option String × Bool × Option String × Bool :=
  parseRedirAux parts [] none false none false

/-- `is_builtin` (src/main.rs:482-484). -/
def is_builtin (cmd : String) : Bool :=
  cmd == "echo" || cmd == "exit" || cmd == "type" || cmd == "pwd" || cmd == "cd"

/-- The directory loop of `find_in_path` (src/main.rs:312-330).  The
filesystem is an oracle `fs : String → Option Nat`: `some mode` when the
path exists (with its permission bits), `none` when it does not.  The
Rust `exists()` test followed by `fs::metadata` is modelled as the single
lookup; `full_path.to_str()` always succeeds on the string model. -/
def findInDirs (fs : String → Option Nat) (cmd : String) : List String → Option String
  | [] => none
  | d :: rest =>
    let fp := joinPath d cmd
    match fs fp with
    | some mode =>
      if Nat.land mode 73 != 0 then some fp else findInDirs fs cmd rest
    | none => findInDirs fs cmd rest

/-- `find_in_path` (src/main.rs:312-330): `env::var("PATH")` is the
`pathEnv` argument (`none` when unset); `0o111 = 73`. -/
def find_in_path (fs : String → Option Nat) (pathEnv : Option String)
    (cmd : String) : Option String :=
  match pathEnv with
  | none => none
  | some penv => findInDirs fs cmd (splitChar ':' penv)

/-- Which side of the (single) pipe a child process belongs to. -/
inductive Side where
  | left
  | right
deriving DecidableEq

/-- Observable events of one loop iteration: bytes written to the
shell's stdout/stderr, child-process management calls, and file
side effects. -/
inductive Ev where
  | spawnEv (s : Side)
  | killEv (s : Side)
  | waitEv (s : Side)
  | out (bytes : String)
  | errOut (bytes : String)
  | writeFileEv (path : String) (content : String) (append : Bool)
  | createFileEv (path : String)
  | chdirEv (path : String)
deriving DecidableEq

/-- Oracle for everything the process asks of the outside world:
the filesystem (path → permission mode), environment variables,
the current directory, and the outcomes of process-management calls. -/
structure OS where
  fs : String → Option Nat
  pathEnv : Option String
  cwd : Option String
  home : Option String
  spawnOk : String → Bool
  rightWaitOk : Bool
  rightStatus : Option Int
  rightOut : String
  rightErr : String
  createOk : String → Bool
  chdirOk : String → Bool
  runOk : String → Bool
  procOut : String
  procErr : String

/-- Result of running one piece of the shell: the trace of events, and
`some code` when the shell process itself terminated via
`std::process::exit(code)` (otherwise `none`: control returns to the
loop). -/
abbrev RunRes := List Ev × Option Int

/-- `execute_builtin` (src/main.rs:486-529): returns the output byte
buffer.  `cd` and `exit` fall into the empty default arm.  The stdin
drain (read_to_end into a discarded buffer) has no observable effect in
this model, so the upstream source is an opaque `Option Unit`. -/
def execute_builtin (os : OS) (cmd : String) (args : List String)
    (stdinSrc : Option Unit) : String :=
  let _ := stdinSrc
  if cmd == "echo" then String.intercalate " " args ++ "\n"
  else if cmd == "type" then
    match args.head? with
    | some arg =>
      if is_builtin arg then arg ++ " is a shell builtin\n"
      else
        match find_in_path os.fs os.pathEnv arg with
        | some path => arg ++ " is " ++ path ++ "\n"
        | none => arg ++ ": not found\n"
    | none => ""
  else if cmd == "pwd" then
    match os.cwd with
    | some p => p ++ "\n"
    | none => ""
  else ""

/-- `execute_pipeline` (src/main.rs:531-686).  `pipePos` is the index of
the first `|` token found by the caller; `spawnOk` is keyed by the
resolved path, `rightWaitOk`/`rightStatus` describe the right child's
`wait` call (`rightStatus = none` models death by signal: `success()`
false, `code()` `None`).  Event order follows the source; the
`stdin.write_all` of case 2 has no observable event of its own. -/
def execute_pipeline (os : OS) (parts : List String) (pipePos : Nat) : RunRes :=
  let left_parts := parts.take pipePos
  let right_parts := parts.drop (pipePos + 1)
  if left_parts.isEmpty || right_parts.isEmpty then ([], none)
  else
    let left_cmd := left_parts.headD ""
    let right_cmd := right_parts.headD ""
    if is_builtin left_cmd && is_builtin right_cmd then
      -- Case 1: both builtins; the left output is computed and discarded
      let _left_output := execute_builtin os left_cmd left_parts.tail none
      let right_output := execute_builtin os right_cmd right_parts.tail none
      ([Ev.out right_output], none)
    else if is_builtin left_cmd && !is_builtin right_cmd then
      -- Case 2: builtin | external
      let _left_output := execute_builtin os left_cmd left_parts.tail none
      match find_in_path os.fs os.pathEnv right_cmd with
      | none => ([Ev.errOut (right_cmd ++ ": command not found\n")], none)
      | some rpath =>
        if os.spawnOk rpath then
          if os.rightWaitOk then
            ([Ev.spawnEv .right, Ev.waitEv .right,
              Ev.out os.rightOut, Ev.errOut os.rightErr], none)
          else
            ([Ev.spawnEv .right, Ev.waitEv .right,
              Ev.errOut ("Failed to wait for " ++ right_cmd ++ "\n")], none)
        else ([Ev.errOut ("Failed to execute " ++ right_cmd ++ "\n")], none)
    else if !is_builtin left_cmd && is_builtin right_cmd then
      -- Case 3: external | builtin
      match find_in_path os.fs os.pathEnv left_cmd with
      | none => ([Ev.errOut (left_cmd ++ ": command not found\n")], none)
      | some lpath =>
        if os.spawnOk lpath then
          let right_output := execute_builtin os right_cmd right_parts.tail (some ())
          ([Ev.spawnEv .left, Ev.out right_output,
            Ev.killEv .left, Ev.waitEv .left], none)
        else ([Ev.errOut ("Failed to execute " ++ left_cmd ++ "\n")], none)
    else
      -- Case 4: external | external
      match find_in_path os.fs os.pathEnv left_cmd with
      | none => ([Ev.errOut (left_cmd ++ ": command not found\n")], none)
      | some lpath =>
        match find_in_path os.fs os.pathEnv right_cmd with
        | none => ([Ev.errOut (right_cmd ++ ": command not found\n")], none)
        | some rpath =>
          if os.spawnOk lpath then
            if os.spawnOk rpath then
              if os.rightWaitOk then
                let base := [Ev.spawnEv .left, Ev.spawnEv .right, Ev.waitEv .right,
                             Ev.killEv .left, Ev.waitEv .left]
                match os.rightStatus with
                | some c => if c == 0 then (base, none) else (base, some c)
                | none => (base, none)
              else
                -- wait on the right child failed: left is killed, never waited
                ([Ev.spawnEv .left, Ev.spawnEv .right, Ev.waitEv .right,
                  Ev.errOut ("Failed to wait for " ++ right_cmd ++ "\n"),
                  Ev.killEv .left], none)
            else
              -- right spawn failed: left is killed, never waited
              ([Ev.spawnEv .left,
                Ev.errOut ("Failed to execute " ++ right_cmd ++ "\n"),
                Ev.killEv .left], none)
          else ([Ev.errOut ("Failed to execute " ++ left_cmd ++ "\n")], none)

/-- One iteration of the `main` loop body (src/main.rs:112-309) on an
already-trimmed input line.  `println!`/`eprintln!` output carries its
trailing newline; raw `write_all` output does not. -/
def mainStep (os : OS) (input : String) : RunRes :=
  let parts := parse_arguments input
  if parts.isEmpty then ([], none)
  else
    match parts.findIdx? (· == "|") with
    | some pipePos => execute_pipeline os parts pipePos
    | none =>
      if strStarts input "exit" then
        let exitParts := splitWhitespaceRust input
        let code : Int :=
          if exitParts.length > 1 then (rustParseI32 (exitParts.getD 1 "")).getD 0
          else 0
        ([], some code)
      else if strStarts input "echo " then
        let (cmd_args, stdout_file, stdout_append, stderr_file, _stderr_append) :=
          parse_redirection parts.tail
        let output_text := String.intercalate " " cmd_args
        let outEvs :=
          match stdout_file with
          | some fp =>
            if os.createOk fp then [Ev.writeFileEv fp (output_text ++ "\n") stdout_append]
            else [Ev.errOut ("Failed to create file: " ++ fp ++ "\n")]
          | none => [Ev.out (output_text ++ "\n")]
        let errEvs :=
          match stderr_file with
          | some fp => [Ev.createFileEv fp]
          | none => []
        (outEvs ++ errEvs, none)
      else if input == "pwd" then
        match os.cwd with
        | some p => ([Ev.out (p ++ "\n")], none)
        | none => ([Ev.errOut "pwd: error getting current directory\n"], none)
      else if strStarts input "cd " then
        let path := strDropChars 3 input
        let expanded :=
          if path == "~" || strStarts path "~/" then
            match os.home with
            | some home => if path == "~" then home else home ++ strDropChars 1 path
            | none => path
          else path
        if os.chdirOk expanded then ([Ev.chdirEv expanded], none)
        else ([Ev.out ("cd: " ++ path ++ ": No such file or directory\n")], none)
      else if strStarts input "type " then
        let cmd := strDropChars 5 input
        if cmd == "echo" || cmd == "exit" || cmd == "type" || cmd == "pwd"
            || cmd == "cd" then
          ([Ev.out (cmd ++ " is a shell builtin\n")], none)
        else
          match find_in_path os.fs os.pathEnv cmd with
          | some path => ([Ev.out (cmd ++ " is " ++ path ++ "\n")], none)
          | none => ([Ev.out (cmd ++ ": not found\n")], none)
      else
        -- external-command branch (src/main.rs:222-308)
        let (cmd_parts, stdout_file, _stdout_append, stderr_file, _stderr_append) :=
          parse_redirection parts
        if cmd_parts.isEmpty then ([], none)
        else
          let cmd := cmd_parts.headD ""
          if cmd == "exit" || cmd == "echo" || cmd == "type" || cmd == "pwd"
              || cmd == "cd" then
            ([Ev.out (input ++ ": command not found\n")], none)
          else
            match find_in_path os.fs os.pathEnv cmd with
            | some path =>
              let soFail := match stdout_file with
                | some fp => !os.createOk fp
                | none => false
              let seFail := match stderr_file with
                | some fp => !os.createOk fp
                | none => false
              if soFail then
                ([Ev.errOut ("Failed to create file: "
                    ++ (stdout_file.getD "") ++ "\n")], none)
              else if seFail then
                ([Ev.errOut ("Failed to create file: "
                    ++ (stderr_file.getD "") ++ "\n")], none)
              else if os.runOk path then
                ((if stdout_file.isNone then [Ev.out os.procOut] else [])
                  ++ (if stderr_file.isNone then [Ev.errOut os.procErr] else []), none)
              else ([Ev.out (input ++ ": command not found\n")], none)
            | none => ([Ev.out (input ++ ": command not found\n")], none)

/-- A closed default oracle: empty filesystem, `PATH=/bin`, all
process-management calls succeed, right child exits 0. -/
def osDefault : OS :=
  { fs := fun _ => none
    pathEnv := some "/bin"
    cwd := some "/root"
    home := some "/root"
    spawnOk := fun _ => true
    rightWaitOk := true
    rightStatus := some 0
    rightOut := ""
    rightErr := ""
    createOk := fun _ => true
    chdirOk := fun _ => true
    runOk := fun _ => true
    procOut := ""
    procErr := "" }

/-- Oracle with executables `a` and `b` on `PATH=/bin`, where the right
child of an external pipeline exits with status 1. -/
def osFailRight : OS :=
  { osDefault with
    fs := fun p => if p == "/bin/a" || p == "/bin/b" then some 73 else none
    rightStatus := some 1 }

/-- Oracle with executables `a` and `b` on `PATH=/bin`, where spawning
succeeds only for `/bin/a`. -/
def osSpawnFailB : OS :=
  { osDefault with
    fs := fun p => if p == "/bin/a" || p == "/bin/b" then some 73 else none
    spawnOk := fun p => p == "/bin/a" }

/-- Oracle with executables `a` and `b` on `PATH=/bin`, everything
succeeding. -/
def osAB : OS :=
  { osDefault with
    fs := fun p => if p == "/bin/a" || p == "/bin/b" then some 73 else none }

/-- The executability test applied to each candidate path: the file
exists and `mode & 0o111 != 0`. -/
def isExecFile (fs : String → Option Nat) (fp : String) : Bool :=
  match fs fp with
  | some mode => Nat.land mode 73 != 0
  | none => false

/-- Specification-side formulation of PATH resolution, following the
words of spec §4.3: split the PATH value on `:` preserving order, join
each directory with the name, and return the first candidate that
exists and has an execute bit set.  Compared against `find_in_path` as
a refinement. -/
def resolveSpec (fs : String → Option Nat) (penv cmd : String) : Option String :=
  ((splitChar ':' penv).map (fun d => joinPath d cmd)).find? (isExecFile fs)

/-- The filesystem of the spec §8 example: a non-executable `/a/cmd`
(mode `0o644 = 420`) and an executable `/b/cmd` (mode `0o755 = 493`). -/
def fsTwoDirs : String → Option Nat := fun p =>
  if p == "/a/cmd" then some 420
  else if p == "/b/cmd" then some 493
  else none

theorem findInDirs_eq_find (fs : String → Option Nat) (cmd : String) :
    ∀ dirs : List String,
      findInDirs fs cmd dirs =
        (dirs.map (fun d => joinPath d cmd)).find? (isExecFile fs) := by
  intro dirs
  induction dirs with
  | nil => rfl
  | cons d rest ih =>
    rw [findInDirs, List.map_cons]
    cases hfs : fs (joinPath d cmd) with
    | some mode =>
      by_cases hm : (Nat.land mode 73 != 0) = true
      · rw [List.find?_cons_of_pos _ (by simp [isExecFile, hfs, hm])]
        simp [hm]
      · rw [List.find?_cons_of_neg _ (by simp only [isExecFile, hfs]; simpa using hm),
          ← ih]
        try simp [hm]
    | none =>
      rw [List.find?_cons_of_neg _ (by simp [isExecFile, hfs]), ← ih]
      try simp

/-- C7: `find_in_path` splits PATH on `:` in order, joins each directory
with the name, and returns the first candidate that exists and has an
owner/group/other execute bit set, skipping existing non-executable
candidates; it yields `none` when PATH is unset or the list is
exhausted.  The last conjunct is the spec's `/a:/b` example with a
non-executable `/a/cmd` and an executable `/b/cmd`. -/
theorem C7_find_in_path_first_match :
    (∀ (fs : String → Option Nat) (penv cmd : String),
      find_in_path fs (some penv) cmd = resolveSpec fs penv cmd) ∧
    (∀ (fs : String → Option Nat) (cmd : String),
      find_in_path fs none cmd = none) ∧
    find_in_path fsTwoDirs (some "/a:/b") "cmd" = some "/b/cmd" := by
  refine ⟨fun fs penv cmd => ?_, fun fs cmd => rfl, by decide⟩
  rw [find_in_path, resolveSpec, findInDirs_eq_find]

/-- C5 counterexample: the token sequence `["echo", ">"]` ends in a bare
redirection operator with no following filename and no fused filename,
and `parse_redirection` keeps the `>` token among the returned command
tokens instead of discarding it. -/
theorem C5_trailing_operator_counterexample :
    parse_redirection ["echo", ">"] = (["echo", ">"], none, false, none, false) ∧
    ">" ∈ (parse_redirection ["echo", ">"]).1 := by
  constructor
  · decide
  · decide

/-- C5 amended: a trailing bare redirection operator (any of `>`, `>>`,
`1>`, `1>>`, `2>`, `2>>`) with no following filename token is kept as a
command token — the Rust `if i + 1 < parts.len()` guard falls through to
the plain-token push — rather than being silently discarded. -/
theorem C5_trailing_operator_kept_amended :
    parse_redirection ["echo", ">"] = (["echo", ">"], none, false, none, false) ∧
    parse_redirection ["echo", ">>"] = (["echo", ">>"], none, false, none, false) ∧
    parse_redirection ["echo", "1>"] = (["echo", "1>"], none, false, none, false) ∧
    parse_redirection ["echo", "1>>"] = (["echo", "1>>"], none, false, none, false) ∧
    parse_redirection ["echo", "2>"] = (["echo", "2>"], none, false, none, false) ∧
    parse_redirection ["echo", "2>>"] = (["echo", "2>>"], none, false, none, false) := by
  refine ⟨?_, ?_, ?_, ?_, ?_, ?_⟩ <;> decide

/-- C4 counterexample: `history` is not recognized as a builtin, and at
the top level the input `history` is resolved via PATH like any external
command (here: not found), rather than listing a session command log. -/
theorem C4_history_counterexample :
    is_builtin "history" = false ∧
    mainStep osDefault "history" = ([Ev.out "history: command not found\n"], none) := by
  constructor
  · decide
  · decide

/-- C4 amended: the command name `history` is not recognized as a
builtin anywhere: `is_builtin` rejects it, `execute_builtin` falls into
the empty default arm for it, and the top-level loop treats it as an
external command name to resolve via PATH; no session command log
exists in the program. -/
theorem C4_history_not_builtin_amended :
    is_builtin "history" = false ∧
    (∀ (os : OS) (args : List String) (stdinSrc : Option Unit),
      execute_builtin os "history" args stdinSrc = "") ∧
    mainStep osDefault "history" = ([Ev.out "history: command not found\n"], none) := by
  refine ⟨by decide, fun os args stdinSrc => rfl, by decide⟩

/-- C6 counterexample: for the input `type echo foo` the first argument
`echo` is a builtin, yet the top-level `type` handler reports
`echo foo: not found`: it does not operate on its first argument only,
but on the whole remainder of the input line. -/
theorem C6_type_top_level_counterexample :
    is_builtin "echo" = true ∧
    mainStep osDefault "type echo foo" = ([Ev.out "echo foo: not found\n"], none) ∧
    ([Ev.out "echo foo: not found\n"], (none : Option Int)) ≠
      ([Ev.out "echo is a shell builtin\n"], (none : Option Int)) := by
  refine ⟨by decide, by decide, by decide⟩

/-- C6 amended: only the pipeline-stage implementation of `type`
(`execute_builtin`) operates on its first argument alone, ignoring the
remaining arguments; the top-level handler instead uses the entire text
after `type ` as the name to look up, so extra arguments change the
result (e.g. `type echo foo` looks up `echo foo`). -/
theorem C6_type_first_arg_amended :
    (∀ (os : OS) (a : String) (rest : List String) (stdinSrc : Option Unit),
      execute_builtin os "type" (a :: rest) stdinSrc =
        execute_builtin os "type" [a] stdinSrc) ∧
    mainStep osDefault "type echo foo" = ([Ev.out "echo foo: not found\n"], none) := by
  refine ⟨fun os a rest stdinSrc => rfl, by decide⟩

/-- C3 counterexample: with executables `a` and `b` on PATH, the input
`a | | b` does not behave like `a | b`: the second `|` becomes the right
stage's command name and is reported as `|: command not found`, while
`a | b` runs the full external pipeline. -/
theorem C3_empty_stage_counterexample :
    mainStep osAB "a | | b" = ([Ev.errOut "|: command not found\n"], none) ∧
    mainStep osAB "a | b" =
      ([Ev.spawnEv .left, Ev.spawnEv .right, Ev.waitEv .right,
        Ev.killEv .left, Ev.waitEv .left], none) ∧
    mainStep osAB "a | | b" ≠ mainStep osAB "a | b" := by
  refine ⟨by decide, by decide, by decide⟩

/-- C3 amended: a lone `|` and a leading or trailing `|` make the
executor return without doing anything (the empty side check at
src/main.rs:537-539), but an empty stage between two pipes is not
dropped: in `a | | b` the second `|` is taken as the right stage's
command, so the input does not behave like `a | b`. -/
theorem C3_pipe_noop_amended :
    (∀ os : OS, execute_pipeline os ["|"] 0 = ([], none)) ∧
    (∀ os : OS, execute_pipeline os ["|", "b"] 0 = ([], none)) ∧
    (∀ os : OS, execute_pipeline os ["a", "|"] 1 = ([], none)) ∧
    mainStep osAB "a | | b" = ([Ev.errOut "|: command not found\n"], none) := by
  refine ⟨fun os => rfl, fun os => rfl, fun os => rfl, by decide⟩

/-- C1 counterexample: with executables `a` and `b` on PATH and the
right child exiting with status 1, completing the pipeline `a | b`
terminates the shell process with code 1 (`std::process::exit` at
src/main.rs:677) instead of returning to the loop. -/
theorem C1_pipeline_failure_exits_counterexample :
    mainStep osFailRight "a | b" =
      ([Ev.spawnEv .left, Ev.spawnEv .right, Ev.waitEv .right,
        Ev.killEv .left, Ev.waitEv .left], some 1) := by
  decide

/-- C2 counterexample: when the left stage of `a | b` has been spawned
and the OS then refuses to spawn the right stage, the executor kills the
left process but returns without ever waiting on it, leaving it
unreaped. -/
theorem C2_unreaped_on_spawn_failure_counterexample :
    execute_pipeline osSpawnFailB ["a", "|", "b"] 1 =
      ([Ev.spawnEv .left, Ev.errOut "Failed to execute b\n", Ev.killEv .left], none) ∧
    Ev.spawnEv .left ∈ (execute_pipeline osSpawnFailB ["a", "|", "b"] 1).1 ∧
    Ev.waitEv .left ∉ (execute_pipeline osSpawnFailB ["a", "|", "b"] 1).1 := by
  refine ⟨by decide, by decide, by decide⟩

theorem parseArgsAux_cons_plain (c : Char) (rest : List Char) (cur : String)
    (acc : List String) (h1 : c ≠ '\\') (h2 : c ≠ '\'') (h3 : c ≠ '"')
    (h4 : c ≠ ' ') (h5 : c ≠ '\t') :
    parseArgsAux (c :: rest) cur false false acc =
      parseArgsAux rest (cur.push c) false false acc := by
  rw [parseArgsAux.eq_def]
  simp [h1, h2, h3, h4, h5]

theorem parseArgsAux_cons_space (rest : List Char) (cur : String)
    (acc : List String) (h : strIsEmpty cur = false) :
    parseArgsAux (' ' :: rest) cur false false acc =
      parseArgsAux rest "" false false (acc ++ [cur]) := by
  rw [parseArgsAux.eq_def]
  simp [h]

theorem parseArgsAux_cons_dquote (rest : List Char) (cur : String)
    (acc : List String) :
    parseArgsAux ('"' :: rest) cur false false acc =
      parseArgsAux rest cur false true acc := by
  rw [parseArgsAux.eq_def]
  simp

/-- Inside an open double quote, any character other than `\` and `"`
is accumulated literally; when input ends the (non-empty) accumulation
is flushed as the final token. -/
theorem parseArgsAux_dq_plain (l : List Char) :
    ∀ (cur : String) (acc : List String),
      (l ≠ [] ∨ cur.data ≠ []) →
      (∀ c ∈ l, c ≠ '\\' ∧ c ≠ '"') →
      parseArgsAux l cur false true acc = acc ++ [⟨cur.data ++ l⟩] := by
  induction l with
  | nil =>
    intro cur acc h _
    have hc : cur.data ≠ [] := by
      rcases h with h | h
      · exact absurd rfl h
      · exact h
    have hE : strIsEmpty cur = false := by
      unfold strIsEmpty
      cases hd : cur.data with
      | nil => exact absurd hd hc
      | cons a l => rfl
    rw [parseArgsAux.eq_def]
    simp [hE]
  | cons c rest ih =>
    intro cur acc _ hp
    have h1 : c ≠ '\\' := (hp c (by simp)).1
    have h3 : c ≠ '"' := (hp c (by simp)).2
    rw [show parseArgsAux (c :: rest) cur false true acc =
          parseArgsAux rest (cur.push c) false true acc from by
        rw [parseArgsAux.eq_def]; simp [h1, h3]]
    rw [ih (cur.push c) acc (Or.inr (by simp [String.push]))
      (fun d hd => hp d (by simp [hd]))]
    simp [String.push]

/-- C8: an input line consisting of `echo ` followed by an opening
double quote that is never closed does not error: the quote stays open
through end-of-line and the accumulated content is flushed as the final
token, so the result is exactly the two tokens `echo` and the quoted
remainder (the hypothesis restricts the remainder to characters that
are literal inside double quotes). -/
theorem C8_unterminated_quote_flushed (s : String) (hne : s.data ≠ [])
    (hp : ∀ c ∈ s.data, c ≠ '\\' ∧ c ≠ '"') :
    parse_arguments ("echo \"" ++ s) = ["echo", s] := by
  obtain ⟨sd⟩ := s
  have hdata : (("echo \"" ++ (⟨sd⟩ : String)) : String).data =
      'e' :: 'c' :: 'h' :: 'o' :: ' ' :: '"' :: sd := rfl
  unfold parse_arguments
  rw [hdata]
  rw [parseArgsAux_cons_plain 'e' _ _ _ (by decide) (by decide) (by decide)
    (by decide) (by decide)]
  rw [parseArgsAux_cons_plain 'c' _ _ _ (by decide) (by decide) (by decide)
    (by decide) (by decide)]
  rw [parseArgsAux_cons_plain 'h' _ _ _ (by decide) (by decide) (by decide)
    (by decide) (by decide)]
  rw [parseArgsAux_cons_plain 'o' _ _ _ (by decide) (by decide) (by decide)
    (by decide) (by decide)]
  rw [parseArgsAux_cons_space _ _ _ (by decide)]
  rw [parseArgsAux_cons_dquote]
  rw [parseArgsAux_dq_plain sd _ _ (Or.inl hne) hp]
  simp
  decide

/-- Witness for C8 at the spec's own example `echo "unterminated`. -/
theorem C8_unterminated_quote_flushed_witness :
    parse_arguments ("echo \"" ++ "unterminated") = ["echo", "unterminated"] :=
  C8_unterminated_quote_flushed "unterminated" (by decide) (by decide)

theorem strIsEmpty_false_ne {s : String} (h : strIsEmpty s = false) :
    s.data ≠ [] := by
  intro hd
  unfold strIsEmpty at h
  rw [hd] at h
  simp at h

/-- Every token emitted by the tokenizer loop is a non-empty string:
the current argument is only flushed when non-empty. -/
theorem parseArgsAux_tokens_ne_nil :
    ∀ (l : List Char) (cur : String) (inS inD : Bool) (acc : List String),
      (∀ t ∈ acc, t.data ≠ []) →
      ∀ t ∈ parseArgsAux l cur inS inD acc, t.data ≠ [] := by
  intro l cur inS inD acc
  induction l, cur, inS, inD, acc using parseArgsAux.induct with
  | case1 cur inS inD acc hE =>
    intro hacc t ht
    rw [parseArgsAux.eq_def] at ht
    simp [hE] at ht
    exact hacc t ht
  | case2 cur inS inD acc hE =>
    intro hacc t ht
    rw [parseArgsAux.eq_def] at ht
    simp [hE] at ht
    rcases ht with h | h
    · exact hacc t h
    · subst h
      exact strIsEmpty_false_ne (Bool.not_eq_true _ ▸ hE)
  | case3 c cur inS inD acc hb hE =>
    intro hacc t ht
    rw [parseArgsAux.eq_def] at ht
    simp [hb, hE] at ht
    exact hacc t ht
  | case4 c cur inS inD acc hb hE =>
    intro hacc t ht
    rw [parseArgsAux.eq_def] at ht
    simp [hb, hE] at ht
    rcases ht with h | h
    · exact hacc t h
    · subst h
      exact strIsEmpty_false_ne (Bool.not_eq_true _ ▸ hE)
  | case5 c cur inS acc hb n rest2 hn ih =>
    intro hacc t ht
    rw [parseArgsAux.eq_def] at ht
    simp [hb, hn] at ht
    exact ih hacc t ht
  | case6 c cur inS acc hb n rest2 hn ih =>
    intro hacc t ht
    rw [parseArgsAux.eq_def] at ht
    simp only [hb, if_pos rfl, if_true] at ht
    rw [if_neg hn] at ht
    exact ih hacc t ht
  | case7 c cur inS inD acc hb n rest2 hd ih =>
    intro hacc t ht
    have hD : inD = false := by simpa using hd
    subst hD
    rw [parseArgsAux.eq_def] at ht
    simp [hb] at ht
    exact ih hacc t ht
  | case8 c rest cur inS inD acc hb hq ih =>
    intro hacc t ht
    rw [parseArgsAux.eq_def] at ht
    simp [hb, hq] at ht
    exact ih hacc t ht
  | case9 c rest cur inS inD acc hb hq hdq ih =>
    intro hacc t ht
    rw [parseArgsAux.eq_def] at ht
    simp [hb, hq, hdq] at ht
    exact ih hacc t ht
  | case10 c rest cur inS inD acc hb hq hdq hw hE ih =>
    intro hacc t ht
    rw [parseArgsAux.eq_def] at ht
    simp [hb, hq, hdq, hw, hE] at ht
    exact ih hacc t ht
  | case11 c rest cur inS inD acc hb hq hdq hw hE ih =>
    intro hacc t ht
    rw [parseArgsAux.eq_def] at ht
    simp [hb, hq, hdq, hw, hE] at ht
    refine ih (fun u hu => ?_) t ht
    rcases List.mem_append.mp hu with h | h
    · exact hacc u h
    · rw [List.mem_singleton.mp h]
      exact strIsEmpty_false_ne (Bool.not_eq_true _ ▸ hE)
  | case12 c rest cur inS inD acc hb hq hdq hw ih =>
    intro hacc t ht
    rw [parseArgsAux.eq_def] at ht
    simp [hb, hq, hdq, hw] at ht
    exact ih hacc t ht

/-- C10: tokenization never produces an empty token — every token of
`parse_arguments` is a non-empty string — and an explicitly quoted
empty argument contributes no token at all: `a "" b` yields exactly
`["a", "b"]`. -/
theorem C10_no_empty_tokens :
    (∀ (s t : String), t ∈ parse_arguments s → t ≠ "") ∧
    parse_arguments "a \"\" b" = ["a", "b"] := by
  constructor
  · intro s t ht heq
    have := parseArgsAux_tokens_ne_nil s.data "" false false [] (by simp) t ht
    exact this (by rw [heq])
  · decide

/-- Witness for C10: the token `a` of the tokenization of `a "" b` is
non-empty. -/
theorem C10_no_empty_tokens_witness : ("a" : String) ≠ "" :=
  C10_no_empty_tokens.1 "a \"\" b" "a" (by decide)

/-- C9: a non-empty input line with no pipe token whose text begins with
the four characters `exit` terminates the shell process — the exit code
is computed from the whitespace-split words of the raw input (0 when
there is no second word or it fails to parse), so `exitfoo` exits with
status 0 rather than being reported as command-not-found. -/
theorem C9_exit_by_text_start (os : OS) (input : String)
    (h1 : parse_arguments input ≠ [])
    (h2 : (parse_arguments input).findIdx? (· == "|") = none)
    (h3 : strStarts input "exit" = true) :
    mainStep os input =
      ([], some (if (splitWhitespaceRust input).length > 1
        then (rustParseI32 ((splitWhitespaceRust input).getD 1 "")).getD 0
        else 0)) := by
  have h1' : (parse_arguments input).isEmpty = false := by
    cases hp : parse_arguments input with
    | nil => exact absurd hp h1
    | cons a l => rfl
  simp only [mainStep, h1', h2, h3]
  simp

/-- Witness for C9 at the input `exitfoo`: the process exits with 0. -/
theorem C9_exit_by_text_start_witness :
    mainStep osDefault "exitfoo" = ([], some 0) :=
  (C9_exit_by_text_start osDefault "exitfoo" (by decide) (by decide)
    (by decide)).trans (by decide)

/-- C1 amended: completing a pipeline returns control to the loop in
every case except one: when both stages are external (neither side's
command is a builtin), everything is spawned and waited successfully,
and the right child's exit status carries a nonzero code `c`, the
executor terminates the whole shell process with code `c`
(`std::process::exit` at src/main.rs:677). -/
theorem C1_pipeline_exit_amended (os : OS) (parts : List String)
    (pipePos : Nat) (c : Int)
    (h : (execute_pipeline os parts pipePos).2 = some c) :
    is_builtin ((parts.take pipePos).headD "") = false ∧
    is_builtin ((parts.drop (pipePos + 1)).headD "") = false ∧
    os.rightStatus = some c ∧ c ≠ 0 := by
  simp only [execute_pipeline] at h
  repeat' split at h
  all_goals simp_all

/-- Witness for C1 amended at the failing pipeline `a | b` under
`osFailRight`. -/
theorem C1_pipeline_exit_amended_witness :
    is_builtin (((["a", "|", "b"] : List String).take 1).headD "") = false ∧
    is_builtin (((["a", "|", "b"] : List String).drop 2).headD "") = false ∧
    osFailRight.rightStatus = some 1 ∧ (1 : Int) ≠ 0 :=
  C1_pipeline_exit_amended osFailRight ["a", "|", "b"] 1 1 (by decide)

/-- C2 amended: reaping is not guaranteed on every exit path.  When both
stages are external, both resolve, the left stage spawns, and the OS
then refuses to spawn the right stage, the executor kills the
already-spawned left process but returns without waiting on it: the
trace on that path is exactly spawn-left, spawn-error message,
kill-left, with no wait event for the left process. -/
theorem C2_kill_without_wait_amended (os : OS) (parts : List String)
    (pipePos : Nat) (lc rc : String) (lrest rrest : List String)
    (lp rp : String)
    (htake : parts.take pipePos = lc :: lrest)
    (hdrop : parts.drop (pipePos + 1) = rc :: rrest)
    (hlb : is_builtin lc = false) (hrb : is_builtin rc = false)
    (hfl : find_in_path os.fs os.pathEnv lc = some lp)
    (hfr : find_in_path os.fs os.pathEnv rc = some rp)
    (hsl : os.spawnOk lp = true) (hsr : os.spawnOk rp = false) :
    execute_pipeline os parts pipePos =
      ([Ev.spawnEv .left, Ev.errOut ("Failed to execute " ++ rc ++ "\n"),
        Ev.killEv .left], none) ∧
    Ev.waitEv .left ∉ (execute_pipeline os parts pipePos).1 := by
  have heq : execute_pipeline os parts pipePos =
      ([Ev.spawnEv .left, Ev.errOut ("Failed to execute " ++ rc ++ "\n"),
        Ev.killEv .left], none) := by
    simp only [execute_pipeline, htake, hdrop]
    simp [hlb, hrb, hfl, hfr, hsl, hsr]
  refine ⟨heq, ?_⟩
  rw [heq]
  simp

/-- Witness for C2 amended at `a | b` under `osSpawnFailB` (spawn of
`/bin/b` fails). -/
theorem C2_kill_without_wait_amended_witness :
    execute_pipeline osSpawnFailB ["a", "|", "b"] 1 =
      ([Ev.spawnEv .left, Ev.errOut ("Failed to execute " ++ "b" ++ "\n"),
        Ev.killEv .left], none) ∧
    Ev.waitEv .left ∉ (execute_pipeline osSpawnFailB ["a", "|", "b"] 1).1 :=
  C2_kill_without_wait_amended osSpawnFailB ["a", "|", "b"] 1 "a" "b" [] []
    "/bin/a" "/bin/b" (by decide) (by decide) (by decide) (by decide)
    (by decide) (by decide) (by decide) (by decide)

end Popper
